import Mathlib

/-!
Verification of the OAuth2 token lifecycle and authenticated-request wrapper
of the vat-sandbox client (`src/app.py`).

Modelling conventions:
* The session token store (`st.session_state.access_token`, `.refresh_token`,
  `.token_expiry`) is the record `TokenState`; `Option String` fields model
  Python values that may be `None`, and `truthy` models Python truthiness of
  an optional string (`None` and `""` are falsy).
* `time.time()` is modelled by explicit `Int` arguments: `t0` for the call in
  the freshness guard (app.py line 75) and `t1` for the call when installing
  a new expiry (lines 81 and 142).
* A token-endpoint HTTP exchange (`requests.post` + `raise_for_status` +
  `.json()`) is modelled by an oracle argument of type `ExchangeReply`:
  `.failure` when the request raised (transport error or non-2xx status),
  `.success tokens` when it returned a decoded JSON body.  The decoded body
  `TokenJson` has `Option` fields, `none` meaning the key is absent.
* `uuid.uuid4()` inside `fraud_prevention_headers` is modelled by an explicit
  `deviceId : String` argument, fresh at each call site.
* Raised exceptions are explicit constructors (`EnsureResult.raised`,
  `ApiResult` constructors); header maps are association lists in Python
  dict insertion order.
-/

namespace VatSandbox

/-- Python truthiness of an optional string: `None` and `""` are falsy. -/
def truthy : Option String → Bool
  | none => false
  | some s => s != ""

/-- The session-scoped token store: `st.session_state.access_token`,
`st.session_state.refresh_token`, `st.session_state.token_expiry`
(app.py lines 30-35). -/
structure TokenState where
  access_token : Option String
  refresh_token : Option String
  token_expiry : Int
deriving Repr, DecidableEq

/-- Decoded JSON body of a token-endpoint response.  A field is `none` when
the key is absent from the JSON object. -/
structure TokenJson where
  access_token : Option String
  refresh_token : Option String
  expires_in : Option Int
deriving Repr, DecidableEq

/-- Outcome of one token-endpoint HTTP call (`requests.post` followed by
`raise_for_status()` and `.json()`): either an exception with its message, or
the decoded JSON body. -/
inductive ExchangeReply where
  | failure (msg : String)
  | success (tokens : TokenJson)
deriving Repr, DecidableEq

/-- What `ensure_token` does on a given run: raise an exception, or return a
value (`none` models Python `None`, "no token available"). -/
inductive EnsureResult where
  | raised (msg : String)
  | returned (tok : Option String)
deriving Repr, DecidableEq

/-- Full outcome of one `ensure_token` run: its result, the token store it
leaves behind, and how many token-endpoint network calls it made. -/
structure EnsureOutcome where
  result : EnsureResult
  state : TokenState
  calls : Nat
deriving Repr, DecidableEq

/-- The freshness guard of `ensure_token` (app.py line 75):
`st.session_state.access_token and time.time() < st.session_state.token_expiry - 60`. -/
def tokenFresh (s : TokenState) (t0 : Int) : Bool :=
  truthy s.access_token && decide (t0 < s.token_expiry - 60)

/-- `ensure_token` (app.py lines 73-83).  `t0` is the `time.time()` of the
guard, `t1` the `time.time()` used for the new expiry, `reply` the outcome of
the refresh exchange when one is attempted.  Line 79 reads
`tokens["access_token"]`, which raises `KeyError` when the key is absent,
before any store field has been written. -/
def ensure_token (s : TokenState) (t0 t1 : Int) (reply : ExchangeReply) :
    EnsureOutcome :=
  if tokenFresh s t0 then
    { result := .returned s.access_token, state := s, calls := 0 }
  else if truthy s.refresh_token then
    match reply with
    | .failure msg => { result := .raised msg, state := s, calls := 1 }
    | .success tokens =>
      match tokens.access_token with
      | none =>
        { result := .raised "KeyError: access_token", state := s, calls := 1 }
      | some a =>
        { result := .returned (some a),
          state :=
            { access_token := some a,
              refresh_token :=
                match tokens.refresh_token with
                | some r => some r
                | none => s.refresh_token,
              token_expiry := t1 + tokens.expires_in.getD 3600 },
          calls := 1 }
  else
    { result := .returned none, state := s, calls := 0 }

/-- `fraud_prevention_headers` (app.py lines 89-102), with the per-call
`str(uuid.uuid4())` modelled by the `deviceId` argument.  Returned as an
association list in Python dict insertion order. -/
def fraud_prevention_headers (deviceId : String) : List (String × String) :=
  [("Gov-Client-Public-IP", "203.0.113.42"),
   ("Gov-Client-Public-Port", "443"),
   ("Gov-Client-User-Agent", "vat-sandbox/0.1.0 (Streamlit)"),
   ("Gov-Client-Device-Id", deviceId),
   ("Gov-Vendor-Product-Name", "vat-sandbox"),
   ("Gov-Vendor-Version", "vat-sandbox=0.1.0"),
   ("Gov-Vendor-License-IDs", "default"),
   ("Gov-Client-Timezone", "UTC")]

/-- Header dict built by `api_get` (app.py lines 111-115), in insertion
order. -/
def api_get_headers (token deviceId : String) : List (String × String) :=
  ("Authorization", "Bearer " ++ token) ::
  ("Accept", "application/json") ::
  fraud_prevention_headers deviceId

/-- Header dict built by `api_post` (app.py lines 123-128), in insertion
order. -/
def api_post_headers (token deviceId : String) : List (String × String) :=
  ("Authorization", "Bearer " ++ token) ::
  ("Content-Type", "application/json") ::
  ("Accept", "application/json") ::
  fraud_prevention_headers deviceId

/-- A resource-endpoint HTTP response: status code and raw body. -/
structure HttpResponse where
  status : Nat
  body : String
deriving Repr, DecidableEq

/-- What an `api_get`/`api_post` run does: raise the
`RuntimeError("No access token")`, propagate an exception raised inside
`ensure_token`, or return the raw response object. -/
inductive ApiResult where
  | raised_no_access_token
  | raised_token_error (msg : String)
  | response (r : HttpResponse)
deriving Repr, DecidableEq

/-- Full outcome of one `api_get`/`api_post` run: the result, the token store
left behind, and the header map of the outgoing resource request when one was
issued. -/
structure ApiOutcome where
  result : ApiResult
  state : TokenState
  request : Option (List (String × String))
deriving Repr, DecidableEq

/-- `api_get` (app.py lines 107-117).  `t0`, `t1`, `reply` feed the inner
`ensure_token` call; `deviceId` is the UUID generated inside
`fraud_prevention_headers`; `resp` is the response delivered by
`requests.get`, returned to the caller unconditionally (no
`raise_for_status`). -/
def api_get (s : TokenState) (t0 t1 : Int) (reply : ExchangeReply)
    (deviceId : String) (resp : HttpResponse) : ApiOutcome :=
  let e := ensure_token s t0 t1 reply
  match e.result with
  | .raised msg =>
    { result := .raised_token_error msg, state := e.state, request := none }
  | .returned tok =>
    if truthy tok then
      { result := .response resp, state := e.state,
        request := some (api_get_headers (tok.getD "") deviceId) }
    else
      { result := .raised_no_access_token, state := e.state, request := none }

/-- `api_post` (app.py lines 119-130): same shape as `api_get` with the extra
`Content-Type` header. -/
def api_post (s : TokenState) (t0 t1 : Int) (reply : ExchangeReply)
    (deviceId : String) (resp : HttpResponse) : ApiOutcome :=
  let e := ensure_token s t0 t1 reply
  match e.result with
  | .raised msg =>
    { result := .raised_token_error msg, state := e.state, request := none }
  | .returned tok =>
    if truthy tok then
      { result := .response resp, state := e.state,
        request := some (api_post_headers (tok.getD "") deviceId) }
    else
      { result := .raised_no_access_token, state := e.state, request := none }

/-- The callback-handling block (app.py lines 136-146): on a `code` query
parameter, exchange it and install the result.  `reply` is the outcome of
`exchange_code_for_token`; `t` is the `time.time()` at line 142.  Any
exception (exchange failure, or the `KeyError` from `tokens["access_token"]`
at line 140, raised before any store field is written) is caught by the
`except` clause, which only displays an error.  Returns the resulting token
store and whether the install succeeded. -/
def handle_callback (s : TokenState) (t : Int) (reply : ExchangeReply) :
    TokenState × Bool :=
  match reply with
  | .failure _ => (s, false)
  | .success tokens =>
    match tokens.access_token with
    | none => (s, false)
    | some a =>
      ({ access_token := some a,
         refresh_token := tokens.refresh_token,
         token_expiry := t + tokens.expires_in.getD 3600 }, true)

end VatSandbox

namespace VatSandbox

/-- Claim C1: when an access token is present (truthy) and the guard time is
strictly below `token_expiry - 60`, `ensure_token` returns the stored token,
makes zero network calls, and leaves every field of the token store
unchanged. -/
theorem c1_valid_token_fast_path (s : TokenState) (t0 t1 : Int)
    (reply : ExchangeReply)
    (haccess : truthy s.access_token = true)
    (hfresh : t0 < s.token_expiry - 60) :
    ensure_token s t0 t1 reply =
      { result := .returned s.access_token, state := s, calls := 0 } := by
  simp [ensure_token, tokenFresh, haccess, hfresh]

/-- Concrete instantiation of `c1_valid_token_fast_path`. -/
theorem c1_valid_token_fast_path_witness :
    truthy (some "T") = true ∧ ((0 : Int) < 1000 - 60) ∧
    ensure_token ⟨some "T", some "R", 1000⟩ 0 5 (.failure "boom") =
      { result := .returned (some "T"), state := ⟨some "T", some "R", 1000⟩,
        calls := 0 } :=
  ⟨by decide, by decide,
    c1_valid_token_fast_path ⟨some "T", some "R", 1000⟩ 0 5 (.failure "boom")
      (by decide) (by decide)⟩

/-- Claim C2: when the freshness guard fails, a refresh token is present, and
the refresh exchange succeeds with an `access_token` in its body,
`ensure_token` makes exactly one network call, overwrites `access_token` with
the response's token, sets `token_expiry` to the post-refresh time plus the
response's `expires_in` (3600 when absent), and returns the new token. -/
theorem c2_refresh_success (s : TokenState) (t0 t1 : Int) (tokens : TokenJson)
    (a : String)
    (hstale : tokenFresh s t0 = false)
    (hrefresh : truthy s.refresh_token = true)
    (haccess : tokens.access_token = some a) :
    (ensure_token s t0 t1 (.success tokens)).calls = 1 ∧
    (ensure_token s t0 t1 (.success tokens)).result = .returned (some a) ∧
    (ensure_token s t0 t1 (.success tokens)).state.access_token = some a ∧
    (ensure_token s t0 t1 (.success tokens)).state.token_expiry =
      t1 + tokens.expires_in.getD 3600 := by
  simp [ensure_token, hstale, hrefresh, haccess]

/-- Concrete instantiation of `c2_refresh_success`: expiry 30 time-units
away, refresh succeeds with `expires_in = 7200`. -/
theorem c2_refresh_success_witness :
    tokenFresh ⟨some "OLD", some "R", 130⟩ 100 = false ∧
    truthy (some "R") = true ∧
    (ensure_token ⟨some "OLD", some "R", 130⟩ 100 101
        (.success ⟨some "NEW", none, some 7200⟩)).calls = 1 ∧
    (ensure_token ⟨some "OLD", some "R", 130⟩ 100 101
        (.success ⟨some "NEW", none, some 7200⟩)).result =
      .returned (some "NEW") ∧
    (ensure_token ⟨some "OLD", some "R", 130⟩ 100 101
        (.success ⟨some "NEW", none, some 7200⟩)).state.access_token =
      some "NEW" ∧
    (ensure_token ⟨some "OLD", some "R", 130⟩ 100 101
        (.success ⟨some "NEW", none, some 7200⟩)).state.token_expiry =
      101 + 7200 := by
  refine ⟨by decide, by decide, ?_⟩
  have h := c2_refresh_success ⟨some "OLD", some "R", 130⟩ 100 101
    ⟨some "NEW", none, some 7200⟩ "NEW" (by decide) (by decide) rfl
  exact ⟨h.1, h.2.1, h.2.2.1, h.2.2.2⟩

/-- Claim C3: on a successful refresh, the stored refresh token is kept
exactly when the response omits `refresh_token`, and is replaced by the
response's value when present. -/
theorem c3_refresh_token_preservation (s : TokenState) (t0 t1 : Int)
    (tokens : TokenJson) (a : String)
    (hstale : tokenFresh s t0 = false)
    (hrefresh : truthy s.refresh_token = true)
    (haccess : tokens.access_token = some a) :
    (tokens.refresh_token = none →
      (ensure_token s t0 t1 (.success tokens)).state.refresh_token =
        s.refresh_token) ∧
    (∀ r : String, tokens.refresh_token = some r →
      (ensure_token s t0 t1 (.success tokens)).state.refresh_token =
        some r) := by
  constructor
  · intro hnone
    simp [ensure_token, hstale, hrefresh, haccess, hnone]
  · intro r hr
    simp [ensure_token, hstale, hrefresh, haccess, hr]

/-- Concrete instantiation of `c3_refresh_token_preservation`: a response
omitting `refresh_token` keeps the stored value. -/
theorem c3_refresh_token_preservation_witness :
    (ensure_token ⟨none, some "KEEP", 0⟩ 100 101
        (.success ⟨some "NEW", none, none⟩)).state.refresh_token =
      some "KEEP" :=
  (c3_refresh_token_preservation ⟨none, some "KEEP", 0⟩ 100 101
    ⟨some "NEW", none, none⟩ "NEW" (by decide) (by decide) rfl).1 rfl

/-- Claim C4: with both `access_token` and `refresh_token` null,
`ensure_token` returns `None` (no exception), makes zero network calls, and
leaves the store unchanged. -/
theorem c4_no_token_path (s : TokenState) (t0 t1 : Int)
    (reply : ExchangeReply)
    (ha : s.access_token = none) (hr : s.refresh_token = none) :
    ensure_token s t0 t1 reply =
      { result := .returned none, state := s, calls := 0 } := by
  simp [ensure_token, tokenFresh, truthy, ha, hr]

/-- Concrete instantiation of `c4_no_token_path`. -/
theorem c4_no_token_path_witness :
    ensure_token ⟨none, none, 0⟩ 0 0 (.failure "unused") =
      { result := .returned none, state := ⟨none, none, 0⟩, calls := 0 } :=
  c4_no_token_path ⟨none, none, 0⟩ 0 0 (.failure "unused") rfl rfl

/-- When `ensure_token` raises, `api_get` propagates the exception. -/
theorem api_get_result_of_raised (s : TokenState) (t0 t1 : Int)
    (reply : ExchangeReply) (deviceId : String) (resp : HttpResponse)
    (msg : String)
    (h : (ensure_token s t0 t1 reply).result = .raised msg) :
    (api_get s t0 t1 reply deviceId resp).result =
      .raised_token_error msg := by
  simp [api_get, h]

/-- When `ensure_token` raises, `api_post` propagates the exception. -/
theorem api_post_result_of_raised (s : TokenState) (t0 t1 : Int)
    (reply : ExchangeReply) (deviceId : String) (resp : HttpResponse)
    (msg : String)
    (h : (ensure_token s t0 t1 reply).result = .raised msg) :
    (api_post s t0 t1 reply deviceId resp).result =
      .raised_token_error msg := by
  simp [api_post, h]

/-- When `ensure_token` returns a falsy value, `api_get` raises. -/
theorem api_get_result_of_falsy (s : TokenState) (t0 t1 : Int)
    (reply : ExchangeReply) (deviceId : String) (resp : HttpResponse)
    (tok : Option String)
    (h : (ensure_token s t0 t1 reply).result = .returned tok)
    (ht : truthy tok = false) :
    (api_get s t0 t1 reply deviceId resp).result =
      .raised_no_access_token := by
  simp [api_get, h, ht]

/-- When `ensure_token` returns a falsy value, `api_post` raises. -/
theorem api_post_result_of_falsy (s : TokenState) (t0 t1 : Int)
    (reply : ExchangeReply) (deviceId : String) (resp : HttpResponse)
    (tok : Option String)
    (h : (ensure_token s t0 t1 reply).result = .returned tok)
    (ht : truthy tok = false) :
    (api_post s t0 t1 reply deviceId resp).result =
      .raised_no_access_token := by
  simp [api_post, h, ht]

/-- When `ensure_token` returns a truthy token, `api_get` returns the raw
response. -/
theorem api_get_result_of_truthy (s : TokenState) (t0 t1 : Int)
    (reply : ExchangeReply) (deviceId : String) (resp : HttpResponse)
    (tok : Option String)
    (h : (ensure_token s t0 t1 reply).result = .returned tok)
    (ht : truthy tok = true) :
    (api_get s t0 t1 reply deviceId resp).result = .response resp := by
  simp [api_get, h, ht]

/-- When `ensure_token` returns a truthy token, `api_post` returns the raw
response. -/
theorem api_post_result_of_truthy (s : TokenState) (t0 t1 : Int)
    (reply : ExchangeReply) (deviceId : String) (resp : HttpResponse)
    (tok : Option String)
    (h : (ensure_token s t0 t1 reply).result = .returned tok)
    (ht : truthy tok = true) :
    (api_post s t0 t1 reply deviceId resp).result = .response resp := by
  simp [api_post, h, ht]

/-- Claim C5: `api_get`/`api_post` raise the no-access-token error exactly
when `ensure_token` returns a falsy token (Python `None` or `""`), and
whenever `ensure_token` returns a truthy token they return the raw response
unchanged, whatever its status code. -/
theorem c5_wrapper_error_routing (s : TokenState) (t0 t1 : Int)
    (reply : ExchangeReply) (deviceId : String) (resp : HttpResponse) :
    ((api_get s t0 t1 reply deviceId resp).result = .raised_no_access_token ↔
      ∃ tok, (ensure_token s t0 t1 reply).result = .returned tok ∧
        truthy tok = false) ∧
    ((api_post s t0 t1 reply deviceId resp).result = .raised_no_access_token ↔
      ∃ tok, (ensure_token s t0 t1 reply).result = .returned tok ∧
        truthy tok = false) ∧
    (∀ tok, (ensure_token s t0 t1 reply).result = .returned tok →
      truthy tok = true →
      (api_get s t0 t1 reply deviceId resp).result = .response resp ∧
      (api_post s t0 t1 reply deviceId resp).result = .response resp) := by
  refine ⟨⟨?_, ?_⟩, ⟨?_, ?_⟩, ?_⟩
  · intro hg
    rcases h : (ensure_token s t0 t1 reply).result with msg | tok
    · rw [api_get_result_of_raised s t0 t1 reply deviceId resp msg h] at hg
      cases hg
    · rcases ht : truthy tok
      · exact ⟨tok, rfl, ht⟩
      · rw [api_get_result_of_truthy s t0 t1 reply deviceId resp tok h ht]
          at hg
        cases hg
  · rintro ⟨tok, h, ht⟩
    exact api_get_result_of_falsy s t0 t1 reply deviceId resp tok h ht
  · intro hp
    rcases h : (ensure_token s t0 t1 reply).result with msg | tok
    · rw [api_post_result_of_raised s t0 t1 reply deviceId resp msg h] at hp
      cases hp
    · rcases ht : truthy tok
      · exact ⟨tok, rfl, ht⟩
      · rw [api_post_result_of_truthy s t0 t1 reply deviceId resp tok h ht]
          at hp
        cases hp
  · rintro ⟨tok, h, ht⟩
    exact api_post_result_of_falsy s t0 t1 reply deviceId resp tok h ht
  · intro tok h ht
    exact ⟨api_get_result_of_truthy s t0 t1 reply deviceId resp tok h ht,
      api_post_result_of_truthy s t0 t1 reply deviceId resp tok h ht⟩

/-- Concrete instantiation of `c5_wrapper_error_routing`: a valid token and a
400 response, returned rather than raised. -/
theorem c5_wrapper_error_routing_witness :
    (api_get ⟨some "T", some "R", 1000⟩ 0 5 (.failure "unused") "D"
        ⟨400, "bad"⟩).result = .response ⟨400, "bad"⟩ ∧
    (api_post ⟨some "T", some "R", 1000⟩ 0 5 (.failure "unused") "D"
        ⟨400, "bad"⟩).result = .response ⟨400, "bad"⟩ :=
  (c5_wrapper_error_routing ⟨some "T", some "R", 1000⟩ 0 5 (.failure "unused")
    "D" ⟨400, "bad"⟩).2.2 (some "T") (by decide) (by decide)

/-- Claim C6: with a usable token `t`, the request issued by `api_get` (resp.
`api_post`) carries exactly the headers built at app.py lines 111-115 (resp.
123-128): exactly one `Authorization` entry, whose value is `Bearer t`, an
`Accept: application/json` entry, every fraud-prevention header, and for
`api_post` also `Content-Type: application/json`. -/
theorem c6_header_completeness (s : TokenState) (t0 t1 : Int)
    (reply : ExchangeReply) (deviceId : String) (resp : HttpResponse)
    (t : String)
    (h : (ensure_token s t0 t1 reply).result = .returned (some t))
    (ht : t ≠ "") :
    (api_get s t0 t1 reply deviceId resp).request =
      some (api_get_headers t deviceId) ∧
    (api_post s t0 t1 reply deviceId resp).request =
      some (api_post_headers t deviceId) ∧
    ((api_get_headers t deviceId).map Prod.fst).count "Authorization" = 1 ∧
    ((api_post_headers t deviceId).map Prod.fst).count "Authorization" = 1 ∧
    ("Authorization", "Bearer " ++ t) ∈ api_get_headers t deviceId ∧
    ("Accept", "application/json") ∈ api_get_headers t deviceId ∧
    ("Authorization", "Bearer " ++ t) ∈ api_post_headers t deviceId ∧
    ("Accept", "application/json") ∈ api_post_headers t deviceId ∧
    ("Content-Type", "application/json") ∈ api_post_headers t deviceId ∧
    (∀ p ∈ fraud_prevention_headers deviceId,
      p ∈ api_get_headers t deviceId ∧ p ∈ api_post_headers t deviceId) := by
  have htr : truthy (some t) = true := by simp [truthy, ht]
  refine ⟨by simp [api_get, h, htr], by simp [api_post, h, htr],
    by simp only [api_get_headers, fraud_prevention_headers, List.map_cons,
      List.map_nil]; decide,
    by simp only [api_post_headers, fraud_prevention_headers, List.map_cons,
      List.map_nil]; decide,
    by simp [api_get_headers], by simp [api_get_headers],
    by simp [api_post_headers], by simp [api_post_headers],
    by simp [api_post_headers], ?_⟩
  intro p hp
  exact ⟨by simp [api_get_headers, hp], by simp [api_post_headers, hp]⟩

/-- Concrete instantiation of `c6_header_completeness`. -/
theorem c6_header_completeness_witness :
    (api_get ⟨some "T", some "R", 1000⟩ 0 5 (.failure "unused") "D"
        ⟨200, "ok"⟩).request = some (api_get_headers "T" "D") ∧
    ((api_get_headers "T" "D").map Prod.fst).count "Authorization" = 1 :=
  have h := c6_header_completeness ⟨some "T", some "R", 1000⟩ 0 5
    (.failure "unused") "D" ⟨200, "ok"⟩ "T" (by decide) (by decide)
  ⟨h.1, h.2.2.1⟩

/-- Claim C7: whenever the callback block fails to install (any exception
during the code-for-token exchange or the installation), the token store is
left exactly as it was; installation is an all-or-nothing overwrite. -/
theorem c7_callback_failure_frame (s : TokenState) (t : Int)
    (reply : ExchangeReply)
    (hfail : (handle_callback s t reply).2 = false) :
    (handle_callback s t reply).1 = s := by
  rcases reply with msg | tokens
  · rfl
  · rcases ha : tokens.access_token with _ | a
    · simp [handle_callback, ha]
    · simp [handle_callback, ha] at hfail

/-- Concrete instantiation of `c7_callback_failure_frame`: a failing exchange
leaves the store untouched. -/
theorem c7_callback_failure_frame_witness :
    (handle_callback ⟨some "A", some "R", 99⟩ 5 (.failure "boom")).1 =
      ⟨some "A", some "R", 99⟩ :=
  c7_callback_failure_frame ⟨some "A", some "R", 99⟩ 5 (.failure "boom") rfl

/-- Claim C8 counterexample: `fraud_prevention_headers` is not call-to-call
deterministic — two calls observing distinct generated device identifiers
return different header maps (`Gov-Client-Device-Id` differs). -/
theorem c8_purity_counterexample :
    fraud_prevention_headers "00000000-0000-0000-0000-000000000000" ≠
      fraud_prevention_headers "11111111-1111-1111-1111-111111111111" := by
  decide

/-- Claim C8 (amended): any two calls of `fraud_prevention_headers` return
maps with the same header names in the same order, agreeing on every header
except `Gov-Client-Device-Id`, which carries the per-call generated
identifier; the function is total (never raises). -/
theorem c8_fixed_except_device_id (d1 d2 : String) :
    (fraud_prevention_headers d1).map Prod.fst =
      (fraud_prevention_headers d2).map Prod.fst ∧
    (fraud_prevention_headers d1).filter
        (fun p => p.1 != "Gov-Client-Device-Id") =
      (fraud_prevention_headers d2).filter
        (fun p => p.1 != "Gov-Client-Device-Id") ∧
    ("Gov-Client-Device-Id", d1) ∈ fraud_prevention_headers d1 := by
  exact ⟨rfl, rfl, by simp [fraud_prevention_headers]⟩

/-- Claim C9: after a successful code-for-token exchange, the stored refresh
token is exactly the response's `refresh_token` field — `None` when the
response omits it — regardless of what was stored before. -/
theorem c9_callback_refresh_overwrite (s : TokenState) (t : Int)
    (tokens : TokenJson) (a : String)
    (ha : tokens.access_token = some a) :
    (handle_callback s t (.success tokens)).1.refresh_token =
      tokens.refresh_token := by
  simp [handle_callback, ha]

/-- Concrete instantiation of `c9_callback_refresh_overwrite`: a response
omitting `refresh_token` overwrites a previously stored one with `None`. -/
theorem c9_callback_refresh_overwrite_witness :
    (handle_callback ⟨some "A", some "OLD", 0⟩ 9
        (.success ⟨some "NEW", none, none⟩)).1.refresh_token = none :=
  c9_callback_refresh_overwrite ⟨some "A", some "OLD", 0⟩ 9
    ⟨some "NEW", none, none⟩ "NEW" rfl

/-- Claim C10: an empty-string access token is treated as absent: the
freshness guard rejects it for every expiry, so `ensure_token` proceeds to
the refresh path (one network call) or the no-token result; and when
`ensure_token` returns `""`, both wrappers raise the no-access-token
error. -/
theorem c10_empty_token_treated_absent :
    (∀ (s : TokenState) (t0 t1 : Int) (reply : ExchangeReply),
      s.access_token = some "" →
      tokenFresh s t0 = false ∧
      (truthy s.refresh_token = true →
        (ensure_token s t0 t1 reply).calls = 1) ∧
      (truthy s.refresh_token = false →
        ensure_token s t0 t1 reply =
          { result := .returned none, state := s, calls := 0 })) ∧
    (∀ (s : TokenState) (t0 t1 : Int) (reply : ExchangeReply)
      (deviceId : String) (resp : HttpResponse),
      (ensure_token s t0 t1 reply).result = .returned (some "") →
      (api_get s t0 t1 reply deviceId resp).result =
        .raised_no_access_token ∧
      (api_post s t0 t1 reply deviceId resp).result =
        .raised_no_access_token) := by
  constructor
  · intro s t0 t1 reply ha
    have hguard : tokenFresh s t0 = false := by simp [tokenFresh, truthy, ha]
    refine ⟨hguard, ?_, ?_⟩
    · intro hr
      rcases reply with msg | tokens
      · simp [ensure_token, hguard, hr]
      · rcases ha2 : tokens.access_token with _ | a <;>
          simp [ensure_token, hguard, hr, ha2]
    · intro hr
      simp [ensure_token, hguard, hr]
  · intro s t0 t1 reply deviceId resp h
    exact ⟨by simp [api_get, h, truthy], by simp [api_post, h, truthy]⟩

/-- Concrete instantiation of `c10_empty_token_treated_absent`: an
empty-string stored token with no refresh token yields the no-token result,
and an empty-string token returned by a refresh makes both wrappers raise. -/
theorem c10_empty_token_treated_absent_witness :
    (ensure_token ⟨some "", none, 1000000⟩ 0 0 (.failure "unused") =
      { result := .returned none, state := ⟨some "", none, 1000000⟩,
        calls := 0 }) ∧
    (api_get ⟨none, some "R", 0⟩ 0 0 (.success ⟨some "", none, none⟩) "D"
        ⟨200, "ok"⟩).result = .raised_no_access_token ∧
    (api_post ⟨none, some "R", 0⟩ 0 0 (.success ⟨some "", none, none⟩) "D"
        ⟨200, "ok"⟩).result = .raised_no_access_token :=
  ⟨(c10_empty_token_treated_absent.1 ⟨some "", none, 1000000⟩ 0 0
      (.failure "unused") rfl).2.2 rfl,
   (c10_empty_token_treated_absent.2 ⟨none, some "R", 0⟩ 0 0
      (.success ⟨some "", none, none⟩) "D" ⟨200, "ok"⟩ (by decide)).1,
   (c10_empty_token_treated_absent.2 ⟨none, some "R", 0⟩ 0 0
      (.success ⟨some "", none, none⟩) "D" ⟨200, "ok"⟩ (by decide)).2⟩

end VatSandbox
